import Mathlib

/-!
Shallow embedding of the leakage-safe feature engine and serving pipeline of
the Soccer-Calendar repository (src/backend/ml and src/backend/api/ml_api.py),
together with theorems settling the frozen claims about it.

Conventions:
* Python `datetime` values are modelled by `Date` (year plus an ordinal within
  the year, ordered lexicographically, which matches comparison of ISO-8601
  strings).
* `pandas` NaN cells are modelled by `Option ℚ` (`none` = NaN).
* Python runtime errors are modelled by `Except PyErr`; a division whose
  denominator the interpreter would reject raises `PyErr.zeroDivisionError`,
  a comparison of `None` with a number raises `PyErr.typeError`, and a missing
  dictionary key raises `PyErr.keyError`.
* SQLAlchemy queries over the session are modelled as list operations over an
  explicit `Db` value; `.first()` is `List.find?`, `.order_by` is a stable
  insertion sort, `.limit(n)` is `List.take n`.
-/

/-- A point in time: year plus ordinal position within the year.  Comparison is
lexicographic, which agrees with comparison of the ISO-8601 strings the Python
code produces via `isoformat()`. -/
structure Date where
  year : Int
  ord : Int
deriving DecidableEq, Repr

def dateLt (a b : Date) : Bool :=
  a.year < b.year || (a.year == b.year && a.ord < b.ord)

def dateLe (a b : Date) : Bool :=
  dateLt a b || a == b

/-- Day difference between two dates, in days (`(d2 - d1)` with years counted
as 365 days; the concrete calendar constant is irrelevant to every claim). -/
def dateDiffDays (d2 d1 : Date) : ℚ :=
  ((d2.year - d1.year) * 365 + (d2.ord - d1.ord) : Int)

/-- Row of the `matches` table (database/models.py, class Match). -/
structure Match where
  id : Int
  season : Int
  utc_date : Date
  matchday : Int
  status : String
  home_team_id : Int
  away_team_id : Int
  home_score : Option Int
  away_score : Option Int
  city : Option String
deriving DecidableEq, Repr

/-- Row of the `standings_snapshots` table (database/models.py,
class StandingsSnapshot). -/
structure StandingsSnapshot where
  season : Int
  matchday : Int
  team_id : Int
  position : Int
  played_games : Int
  points : Int
  goals_for : Int
  goals_against : Int
  goal_diff : Int
  snapshot_at : Date
deriving DecidableEq, Repr

/-- Python runtime errors that the embedded code can raise. -/
inductive PyErr where
  | typeError
  | zeroDivisionError
  | keyError
deriving DecidableEq, Repr

/-- Feature-map value: feature maps are Python dicts whose values are floats,
booleans (the `cold_start` flags) or the nested `data_quality` dict. -/
inductive FVal where
  | num (q : ℚ)
  | bool (b : Bool)
  | qual (entries : List (String × Int))
deriving DecidableEq, Repr

abbrev FeatMap := List (String × FVal)

/-- Dict lookup, `d[k]` / `d.get(k)`. -/
def dictGet? (m : FeatMap) (k : String) : Option FVal :=
  (m.find? (fun p => p.1 == k)).map Prod.snd

/-- Python dict insertion: replace the value in place if the key is present,
append otherwise. -/
def dictInsert (m : FeatMap) (k : String) (v : FVal) : FeatMap :=
  if m.any (fun p => p.1 == k) then
    m.map (fun p => if p.1 == k then (k, v) else p)
  else
    m ++ [(k, v)]

/-- Python `{**a, **b}` / successive insertion of the entries of `b` into `a`. -/
def dictUnion (a b : FeatMap) : FeatMap :=
  b.foldl (fun acc p => dictInsert acc p.1 p.2) a

/-- Checked division: Python raises `ZeroDivisionError` on a zero denominator. -/
def pyDiv (a b : ℚ) : Except PyErr ℚ :=
  if b = 0 then .error .zeroDivisionError else .ok (a / b)

/-- Cached head-to-head payload (the JSON stored in `HeadToHeadCache.payload`):
the date the features were computed for, plus the feature dict. -/
structure CachePayload where
  match_date : Date
  features : List (String × ℚ)
deriving DecidableEq, Repr

/-- Row of the `h2h_cache` table (database/models.py, class HeadToHeadCache). -/
structure H2HCacheEntry where
  home_team_id : Int
  away_team_id : Int
  season : Int
  payload : CachePayload
deriving DecidableEq, Repr

/-- Row of the `features_match` table (class FeaturesMatch): the persisted
feature JSON for one match. -/
structure FeaturesMatchRec where
  match_id : Int
  feature_json : FeatMap
deriving DecidableEq, Repr

/-- Row of the `predictions` table (class Prediction). -/
structure PredictionRec where
  match_id : Int
  p_home : ℚ
  p_draw : ℚ
  p_away : ℚ
  model_version : String
deriving DecidableEq, Repr

/-- The database session state visible to the embedded code. -/
structure Db where
  matchTable : List Match
  snapshots : List StandingsSnapshot
  h2hCache : List H2HCacheEntry
  featuresCache : List FeaturesMatchRec
  predictions : List PredictionRec
deriving DecidableEq, Repr

instance [DecidableEq ε] [DecidableEq α] : DecidableEq (Except ε α) := fun x y =>
  match x, y with
  | .error a, .error b =>
      if h : a = b then .isTrue (by rw [h])
      else .isFalse (by intro hc; injection hc; exact h (by assumption))
  | .ok a, .ok b =>
      if h : a = b then .isTrue (by rw [h])
      else .isFalse (by intro hc; injection hc; exact h (by assumption))
  | .error _, .ok _ => .isFalse (fun hc => Except.noConfusion hc)
  | .ok _, .error _ => .isFalse (fun hc => Except.noConfusion hc)

/-- Stable insertion step used to model SQLAlchemy `order_by`. -/
def insertSorted (le : α → α → Bool) (a : α) : List α → List α
  | [] => [a]
  | b :: bs => if le b a then b :: insertSorted le a bs else a :: b :: bs

/-- Stable sort used to model SQLAlchemy `order_by`. -/
def sortByLe (le : α → α → Bool) : List α → List α
  | [] => []
  | a :: as => insertSorted le a (sortByLe le as)

theorem mem_insertSorted {le : α → α → Bool} {a x : α} {l : List α} :
    x ∈ insertSorted le a l ↔ x = a ∨ x ∈ l := by
  induction l with
  | nil => simp [insertSorted]
  | cons b bs ih =>
      by_cases h : le b a = true
      · simp only [insertSorted, h, if_pos, List.mem_cons, ih]
        tauto
      · simp only [insertSorted, h, if_neg, Bool.not_eq_true, List.mem_cons]

theorem mem_sortByLe {le : α → α → Bool} {x : α} {l : List α} :
    x ∈ sortByLe le l ↔ x ∈ l := by
  induction l with
  | nil => simp [sortByLe]
  | cons a as ih =>
      simp only [sortByLe, mem_insertSorted, List.mem_cons, ih]

theorem insertSorted_perm (le : α → α → Bool) (a : α) (l : List α) :
    List.Perm (insertSorted le a l) (a :: l) := by
  induction l with
  | nil => simp [insertSorted]
  | cons b bs ih =>
      by_cases h : le b a = true
      · simp only [insertSorted, h, if_pos]
        exact (ih.cons b).trans (List.Perm.swap a b bs)
      · simp [insertSorted, h]

theorem sortByLe_perm (le : α → α → Bool) (l : List α) :
    List.Perm (sortByLe le l) l := by
  induction l with
  | nil => simp [sortByLe]
  | cons a as ih =>
      exact (insertSorted_perm le a (sortByLe le as)).trans (ih.cons a)

/-! ## ml/features/rolling.py -/

/-- One row of the history DataFrame built by `get_team_match_history`. -/
structure HistRow where
  team_id : Int
  opponent_id : Int
  is_home : Bool
  kickoff : Date
  goals_for : Int
  goals_against : Int
  points : Int
deriving DecidableEq, Repr

/-- Predicate of the query in `get_team_match_history`: same season, strictly
before the cut-off date, and involving the team. -/
def teamHistoryPred (team_id : Int) (season : Int) (before_date : Date)
    (m : Match) : Bool :=
  m.season == season && dateLt m.utc_date before_date &&
    (m.home_team_id == team_id || m.away_team_id == team_id)

/-- Loop body of `get_team_match_history`: build one history row, skipping
matches with a missing score (`continue`). -/
def histRowOf (team_id : Int) (m : Match) : Option HistRow :=
  let is_home := m.home_team_id == team_id
  let team_score := if is_home then m.home_score else m.away_score
  let opponent_score := if is_home then m.away_score else m.home_score
  let opponent_id := if is_home then m.away_team_id else m.home_team_id
  match team_score, opponent_score with
  | some ts, some os =>
      let points : Int := if ts > os then 3 else if ts = os then 1 else 0
      some { team_id := team_id, opponent_id := opponent_id, is_home := is_home,
             kickoff := m.utc_date, goals_for := ts, goals_against := os,
             points := points }
  | _, _ => none

/-- `get_team_match_history`: the team's finished-match history in the season
strictly before `before_date`, ordered by date (leakage-safe query). -/
def get_team_match_history (db : Db) (team_id : Int) (season : Int)
    (before_date : Date) : List HistRow :=
  (sortByLe (fun a b => dateLe a.utc_date b.utc_date)
      (db.matchTable.filter (teamHistoryPred team_id season before_date))).filterMap
    (histRowOf team_id)

/-- Mean of the trailing window that pandas
`shift(1).rolling(window, min_periods=1).mean()` assigns to row `i`:
the mean of the original values at indices `max 0 (i - window) .. i-1`,
`none` (NaN) when no shifted value falls in the window. -/
def rollMeanAt (vals : List Int) (window : Nat) (i : Nat) : Option ℚ :=
  if i = 0 || window = 0 then none
  else
    let lo := i - window
    let seg := (vals.drop lo).take (i - lo)
    some ((seg.foldl (· + ·) 0 : Int) / (seg.length : ℚ))

/-- One row of the DataFrame produced by `compute_rolling_features`. -/
structure RollRow where
  base : HistRow
  points_rolling : Option ℚ
  goals_for_rolling : Option ℚ
  goals_against_rolling : Option ℚ
  goal_diff_rolling : Option ℚ
  rest_days : Option ℚ
deriving DecidableEq, Repr

/-- `compute_rolling_features`: sort by kickoff, apply the shift-by-one rolling
means, and the calendar rest-day diff. -/
def compute_rolling_features (rows : List HistRow) (window : Nat) :
    List RollRow :=
  let s := sortByLe (fun a b => dateLe a.kickoff b.kickoff) rows
  s.mapIdx (fun i r =>
    { base := r
      points_rolling := rollMeanAt (s.map (·.points)) window i
      goals_for_rolling := rollMeanAt (s.map (·.goals_for)) window i
      goals_against_rolling := rollMeanAt (s.map (·.goals_against)) window i
      goal_diff_rolling :=
        rollMeanAt (s.map (fun r => r.goals_for - r.goals_against)) window i
      rest_days :=
        match i, s.get? (i - 1) with
        | 0, _ => none
        | _ + 1, some prev => some (dateDiffDays r.kickoff prev.kickoff)
        | _ + 1, none => none })

/-- Result dict of `get_team_form_features`. -/
structure FormFeatures where
  form_ppg : ℚ
  goals_for_per_match : ℚ
  goals_against_per_match : ℚ
  goal_diff_per_match : ℚ
  rest_days : ℚ
  matches_available : Nat
deriving DecidableEq, Repr

/-- The neutral default form values returned for teams without usable history
(`form_ppg=1.0, goals=1.0/1.0, diff=0.0, rest=7.0`). -/
def defaultFormFeatures (avail : Nat) : FormFeatures :=
  { form_ppg := 1, goals_for_per_match := 1, goals_against_per_match := 1,
    goal_diff_per_match := 0, rest_days := 7, matches_available := avail }

/-- `get_team_form_features`: history, then rolling features, then the most
recent row; defaults when the history is empty or the latest rolling point is
NaN. -/
def get_team_form_features (db : Db) (team_id : Int) (season : Int)
    (match_date : Date) (window : Nat) : FormFeatures :=
  let history := get_team_match_history db team_id season match_date
  if history.isEmpty then defaultFormFeatures 0
  else
    let rolling := compute_rolling_features history window
    match rolling.getLast? with
    | none => defaultFormFeatures history.length
    | some latest =>
        match latest.points_rolling with
        | none => defaultFormFeatures history.length
        | some p =>
            { form_ppg := p
              goals_for_per_match := latest.goals_for_rolling.getD 0
              goals_against_per_match := latest.goals_against_rolling.getD 0
              goal_diff_per_match := latest.goal_diff_rolling.getD 0
              rest_days := latest.rest_days.getD 7
              matches_available := history.length }

/-- `get_match_form_features`: form features of both teams plus differences
and context flags. -/
def get_match_form_features (db : Db) (m : Match) (window : Nat) : FeatMap :=
  let home_form := get_team_form_features db m.home_team_id m.season m.utc_date window
  let away_form := get_team_form_features db m.away_team_id m.season m.utc_date window
  [ ("home_form_ppg", .num home_form.form_ppg),
    ("home_goals_for_per_match", .num home_form.goals_for_per_match),
    ("home_goals_against_per_match", .num home_form.goals_against_per_match),
    ("home_goal_diff_per_match", .num home_form.goal_diff_per_match),
    ("home_rest_days", .num home_form.rest_days),
    ("away_form_ppg", .num away_form.form_ppg),
    ("away_goals_for_per_match", .num away_form.goals_for_per_match),
    ("away_goals_against_per_match", .num away_form.goals_against_per_match),
    ("away_goal_diff_per_match", .num away_form.goal_diff_per_match),
    ("away_rest_days", .num away_form.rest_days),
    ("diff_form_ppg", .num (home_form.form_ppg - away_form.form_ppg)),
    ("diff_goals_for_per_match",
      .num (home_form.goals_for_per_match - away_form.goals_for_per_match)),
    ("diff_goals_against_per_match",
      .num (home_form.goals_against_per_match - away_form.goals_against_per_match)),
    ("diff_goal_diff_per_match",
      .num (home_form.goal_diff_per_match - away_form.goal_diff_per_match)),
    ("diff_rest_days", .num (home_form.rest_days - away_form.rest_days)),
    ("home_flag", .num 1),
    ("same_city",
      .num (match m.city with
            | some c => if c = "London" || c = "Manchester" || c = "Liverpool"
                        then 1 else 0
            | none => 0)),
    ("data_quality",
      .qual [("home_matches", home_form.matches_available),
             ("away_matches", away_form.matches_available)]) ]

/-! ## ml/features/standings.py -/

/-- Result dict of `get_standings_at_matchday`. -/
structure StandingsInfo where
  position : ℚ
  played_games : ℚ
  points : ℚ
  goals_for : ℚ
  goals_against : ℚ
  goal_diff : ℚ
  cold_start : Bool
deriving DecidableEq, Repr

/-- The cold-start standings defaults (position 10, everything else 0). -/
def defaultStandingsInfo : StandingsInfo :=
  { position := 10, played_games := 0, points := 0, goals_for := 0,
    goals_against := 0, goal_diff := 0, cold_start := true }

/-- Snapshot lookup: `.filter(season, matchday, team).first()`. -/
def findSnapshot (db : Db) (season matchday team_id : Int) :
    Option StandingsSnapshot :=
  db.snapshots.find? (fun s =>
    s.season == season && s.matchday == matchday && s.team_id == team_id)

/-- `get_standings_at_matchday`: looks up the snapshot for
`prev_matchday = max(1, matchday - 1)`; cold-start defaults when absent. -/
def get_standings_at_matchday (db : Db) (season matchday team_id : Int) :
    StandingsInfo :=
  let prev_matchday := max 1 (matchday - 1)
  match findSnapshot db season prev_matchday team_id with
  | some s =>
      { position := s.position, played_games := s.played_games,
        points := s.points, goals_for := s.goals_for,
        goals_against := s.goals_against, goal_diff := s.goal_diff,
        cold_start := false }
  | none => defaultStandingsInfo

/-- `get_rank_delta`: position change between matchday−1 and matchday−1−window;
0.0 when not enough history or either snapshot is missing. -/
def get_rank_delta (db : Db) (season matchday team_id : Int)
    (window : Int) : ℚ :=
  if matchday ≤ window then 0
  else
    match findSnapshot db season (matchday - 1) team_id,
          findSnapshot db season (matchday - 1 - window) team_id with
    | some current, some past => ((past.position - current.position : Int) : ℚ)
    | _, _ => 0

/-- `get_match_standings_features`: standings features of both teams.  The
divisions `1.0 / position` raise `ZeroDivisionError` on a zero position. -/
def get_match_standings_features (db : Db) (m : Match) :
    Except PyErr FeatMap := do
  let home_standings := get_standings_at_matchday db m.season m.matchday m.home_team_id
  let away_standings := get_standings_at_matchday db m.season m.matchday m.away_team_id
  let home_rank_delta := get_rank_delta db m.season m.matchday m.home_team_id 5
  let away_rank_delta := get_rank_delta db m.season m.matchday m.away_team_id 5
  let home_strength ← pyDiv 1 home_standings.position
  let away_strength ← pyDiv 1 away_standings.position
  return [
    ("home_position", .num home_standings.position),
    ("home_points", .num home_standings.points),
    ("home_goal_diff", .num home_standings.goal_diff),
    ("home_rank_delta", .num home_rank_delta),
    ("home_cold_start", .bool home_standings.cold_start),
    ("away_position", .num away_standings.position),
    ("away_points", .num away_standings.points),
    ("away_goal_diff", .num away_standings.goal_diff),
    ("away_rank_delta", .num away_rank_delta),
    ("away_cold_start", .bool away_standings.cold_start),
    ("diff_position", .num (home_standings.position - away_standings.position)),
    ("diff_points", .num (home_standings.points - away_standings.points)),
    ("diff_goal_diff", .num (home_standings.goal_diff - away_standings.goal_diff)),
    ("diff_rank_delta", .num (home_rank_delta - away_rank_delta)),
    ("home_table_strength", .num home_strength),
    ("away_table_strength", .num away_strength),
    ("diff_table_strength", .num (home_strength - away_strength)) ]

/-! ## ml/features/h2h.py -/

inductive H2HResult where
  | win
  | draw
  | loss
deriving DecidableEq, Repr

/-- One element of the `h2h_data` list built by `get_head_to_head_matches`. -/
structure H2HRow where
  date : Date
  home_score : Int
  away_score : Int
  result : H2HResult
  venue : String
  goal_diff : Int
deriving DecidableEq, Repr

/-- Pair predicate of the head-to-head queries: either orientation of the two
teams. -/
def h2hPairPred (home_team_id away_team_id : Int) (m : Match) : Bool :=
  (m.home_team_id == home_team_id && m.away_team_id == away_team_id) ||
  (m.home_team_id == away_team_id && m.away_team_id == home_team_id)

/-- Loop body of `get_head_to_head_matches`.  The scores are reoriented to the
requesting home team's perspective; the comparison `home_score > away_score`
raises `TypeError` when either score is `None` (there is no score filter and
no `continue`). -/
def h2hRowOf (home_team_id : Int) (m : Match) : Except PyErr H2HRow :=
  let is_home_team_home := m.home_team_id == home_team_id
  let home_score := if is_home_team_home then m.home_score else m.away_score
  let away_score := if is_home_team_home then m.away_score else m.home_score
  let venue := if is_home_team_home then "home" else "away"
  match home_score, away_score with
  | some hs, some as_ =>
      let result : H2HResult :=
        if hs > as_ then .win else if hs = as_ then .draw else .loss
      .ok { date := m.utc_date, home_score := hs, away_score := as_,
            result := result, venue := venue, goal_diff := hs - as_ }
  | _, _ => .error .typeError

/-- The `for` loop over selected rows: build each row, stopping with the first
raised error. -/
def exceptMapList (f : α → Except ε β) : List α → Except ε (List β)
  | [] => .ok []
  | x :: xs =>
      match f x with
      | .error e => .error e
      | .ok y =>
          match exceptMapList f xs with
          | .error e => .error e
          | .ok ys => .ok (y :: ys)

/-- `get_head_to_head_matches`: up to `limit` most recent meetings between the
pair strictly before `before_date` (any status, unfinished meetings included),
newest first. -/
def get_head_to_head_matches (db : Db) (home_team_id away_team_id : Int)
    (before_date : Date) (limit : Nat) : Except PyErr (List H2HRow) :=
  let selected :=
    (sortByLe (fun a b => dateLe b.utc_date a.utc_date)
        (db.matchTable.filter (fun m =>
          dateLt m.utc_date before_date &&
            h2hPairPred home_team_id away_team_id m))).take limit
  exceptMapList (h2hRowOf home_team_id) selected

/-- `compute_h2h_features`: basic head-to-head aggregates; all-zero defaults
for an empty history, otherwise counts, goal sums and the average-goals
division by the number of matches. -/
def compute_h2h_features (h2h_matches : List H2HRow) :
    Except PyErr (List (String × ℚ)) :=
  if h2h_matches.isEmpty then
    .ok [("h2h_wins", 0), ("h2h_draws", 0), ("h2h_losses", 0),
         ("h2h_goal_diff", 0), ("h2h_avg_goals", 0),
         ("h2h_home_venue_wins", 0), ("h2h_home_venue_matches", 0),
         ("h2h_matches_count", 0)]
  else do
    let wins := (h2h_matches.filter (fun m => m.result == .win)).length
    let draws := (h2h_matches.filter (fun m => m.result == .draw)).length
    let losses := (h2h_matches.filter (fun m => m.result == .loss)).length
    let total_goals :=
      h2h_matches.foldl (fun acc m => acc + m.home_score + m.away_score) (0 : Int)
    let goal_diff := h2h_matches.foldl (fun acc m => acc + m.goal_diff) (0 : Int)
    let home_venue_matches := h2h_matches.filter (fun m => m.venue == "home")
    let home_venue_wins :=
      (home_venue_matches.filter (fun m => m.result == .win)).length
    match pyDiv (total_goals : ℚ) (h2h_matches.length : ℚ) with
    | .error e => .error e
    | .ok avg_goals =>
    .ok [("h2h_wins", (wins : ℚ)), ("h2h_draws", (draws : ℚ)),
            ("h2h_losses", (losses : ℚ)),
            ("h2h_goal_diff", (goal_diff : ℚ)),
            ("h2h_avg_goals", avg_goals),
            ("h2h_home_venue_wins", (home_venue_wins : ℚ)),
            ("h2h_home_venue_matches", (home_venue_matches.length : ℚ)),
            ("h2h_matches_count", (h2h_matches.length : ℚ))]

/-- Lookup in the numeric feature dicts used by the head-to-head code;
`d['k']` raises `KeyError` when the key is absent. -/
def qmapGet (m : List (String × ℚ)) (k : String) : Except PyErr ℚ :=
  match m.find? (fun p => p.1 == k) with
  | some p => .ok p.2
  | none => .error .keyError

/-- Cache lookup of `get_h2h_features`: key is
`(home_team_id, away_team_id, match_date.year)`. -/
def findH2HCacheEntry (db : Db) (home_team_id away_team_id : Int)
    (match_date : Date) : Option H2HCacheEntry :=
  db.h2hCache.find? (fun e =>
    e.home_team_id == home_team_id && e.away_team_id == away_team_id &&
      e.season == match_date.year)

/-- Cache upsert of `get_h2h_features`: overwrite the payload in place when the
entry exists, append a new entry otherwise. -/
def upsertH2HCacheEntry (db : Db) (home_team_id away_team_id : Int)
    (match_date : Date) (payload : CachePayload) : Db :=
  if (findH2HCacheEntry db home_team_id away_team_id match_date).isSome then
    { db with h2hCache := db.h2hCache.map (fun e =>
        if e.home_team_id == home_team_id && e.away_team_id == away_team_id &&
            e.season == match_date.year then
          { e with payload := payload }
        else e) }
  else
    { db with h2hCache := db.h2hCache ++
        [{ home_team_id := home_team_id, away_team_id := away_team_id,
           season := match_date.year, payload := payload }] }

/-- Recompute-and-store path of `get_h2h_features`: select the head-to-head
matches, compute the features, and upsert the cache entry for
`(home, away, match_date.year)` with the newly requested date. -/
def recompute_h2h (db : Db) (home_team_id away_team_id : Int)
    (match_date : Date) (limit : Nat) :
    Except PyErr (List (String × ℚ) × Db) := do
  let h2h_matches ← get_head_to_head_matches db home_team_id away_team_id
      match_date limit
  let features ← compute_h2h_features h2h_matches
  let payload : CachePayload := { match_date := match_date, features := features }
  return (features,
    upsertH2HCacheEntry db home_team_id away_team_id match_date payload)

/-- `get_h2h_features`: returns the cached features when the stored
computed-for date is strictly earlier than the requested date
(`cached match_date < match_date.isoformat()`), otherwise recomputes and
overwrites the cache entry. -/
def get_h2h_features (db : Db) (home_team_id away_team_id : Int)
    (match_date : Date) (limit : Nat) :
    Except PyErr (List (String × ℚ) × Db) :=
  match findH2HCacheEntry db home_team_id away_team_id match_date with
  | some entry =>
      if dateLt entry.payload.match_date match_date then
        .ok (entry.payload.features, db)
      else
        recompute_h2h db home_team_id away_team_id match_date limit
  | none => recompute_h2h db home_team_id away_team_id match_date limit

/-- `get_match_h2h_features`: basic head-to-head features of a match plus the
derived win rates, whose denominators are `max(count, 1)`. -/
def get_match_h2h_features (db : Db) (m : Match) :
    Except PyErr (List (String × ℚ) × Db) := do
  let (h2h_features, db') ← get_h2h_features db m.home_team_id m.away_team_id
      m.utc_date 5
  let wins ← qmapGet h2h_features "h2h_wins"
  let draws ← qmapGet h2h_features "h2h_draws"
  let losses ← qmapGet h2h_features "h2h_losses"
  let goal_diff ← qmapGet h2h_features "h2h_goal_diff"
  let avg_goals ← qmapGet h2h_features "h2h_avg_goals"
  let home_venue_wins ← qmapGet h2h_features "h2h_home_venue_wins"
  let home_venue_matches ← qmapGet h2h_features "h2h_home_venue_matches"
  let matches_count ← qmapGet h2h_features "h2h_matches_count"
  let win_rate ← pyDiv wins (max matches_count 1)
  let home_venue_win_rate ← pyDiv home_venue_wins (max home_venue_matches 1)
  return ([("h2h_wins", wins), ("h2h_draws", draws), ("h2h_losses", losses),
           ("h2h_goal_diff", goal_diff), ("h2h_avg_goals", avg_goals),
           ("h2h_home_venue_wins", home_venue_wins),
           ("h2h_home_venue_matches", home_venue_matches),
           ("h2h_matches_count", matches_count),
           ("h2h_win_rate", win_rate),
           ("h2h_home_venue_win_rate", home_venue_win_rate)], db')

/-! ## ml/features/prioritized_features.py -/

/-- One element of the `h2h_data` list built by `get_extended_h2h_features`. -/
structure H2HRowE where
  date : Date
  home_score : Int
  away_score : Int
  result : H2HResult
  venue : String
  goal_diff : Int
  total_goals : Int
  season : Int
deriving DecidableEq, Repr

/-- `get_default_h2h_features`: neutral defaults used when no head-to-head
data is available (win/loss rate 0.5, draw rate 0.0, league-average 2.5
goals). -/
def get_default_h2h_features : List (String × ℚ) :=
  [("h2h_total_matches", 0), ("h2h_wins", 0), ("h2h_draws", 0),
   ("h2h_losses", 0), ("h2h_win_rate", 1/2), ("h2h_draw_rate", 0),
   ("h2h_loss_rate", 1/2), ("h2h_goal_diff", 0), ("h2h_avg_goals", 5/2),
   ("h2h_avg_goal_diff", 0), ("h2h_home_venue_matches", 0),
   ("h2h_home_venue_wins", 0), ("h2h_home_venue_win_rate", 1/2),
   ("h2h_away_venue_matches", 0), ("h2h_away_venue_wins", 0),
   ("h2h_away_venue_win_rate", 1/2), ("h2h_recent_wins", 0),
   ("h2h_recent_goal_diff", 0), ("h2h_recent_win_rate", 1/2),
   ("h2h_current_season_matches", 0), ("h2h_current_season_wins", 0),
   ("h2h_current_season_win_rate", 1/2), ("h2h_dominance", 0),
   ("h2h_goal_dominance", 0)]

/-- `compute_extended_h2h_features`: comprehensive head-to-head aggregates;
defaults when the data list is empty. -/
def compute_extended_h2h_features (h2h_data : List H2HRowE) :
    Except PyErr (List (String × ℚ)) :=
  match h2h_data with
  | [] => .ok get_default_h2h_features
  | first :: _ => do
      let total_matches := h2h_data.length
      let wins := (h2h_data.filter (fun m => m.result == .win)).length
      let draws := (h2h_data.filter (fun m => m.result == .draw)).length
      let losses := (h2h_data.filter (fun m => m.result == .loss)).length
      let total_goals := h2h_data.foldl (fun acc m => acc + m.total_goals) (0 : Int)
      let goal_diff := h2h_data.foldl (fun acc m => acc + m.goal_diff) (0 : Int)
      let avg_goals ← pyDiv (total_goals : ℚ) (total_matches : ℚ)
      let home_venue_matches := h2h_data.filter (fun m => m.venue == "home")
      let away_venue_matches := h2h_data.filter (fun m => m.venue == "away")
      let home_venue_wins :=
        (home_venue_matches.filter (fun m => m.result == .win)).length
      let away_venue_wins :=
        (away_venue_matches.filter (fun m => m.result == .win)).length
      let recent_matches := h2h_data.take 3
      let recent_wins := (recent_matches.filter (fun m => m.result == .win)).length
      let recent_goal_diff :=
        recent_matches.foldl (fun acc m => acc + m.goal_diff) (0 : Int)
      let current_season_matches :=
        h2h_data.filter (fun m => m.season == first.season)
      let current_season_wins :=
        (current_season_matches.filter (fun m => m.result == .win)).length
      let win_rate ← pyDiv (wins : ℚ) (total_matches : ℚ)
      let draw_rate ← pyDiv (draws : ℚ) (total_matches : ℚ)
      let loss_rate ← pyDiv (losses : ℚ) (total_matches : ℚ)
      let avg_goal_diff ← pyDiv (goal_diff : ℚ) (total_matches : ℚ)
      let home_venue_win_rate ←
        pyDiv (home_venue_wins : ℚ) (max (home_venue_matches.length : ℚ) 1)
      let away_venue_win_rate ←
        pyDiv (away_venue_wins : ℚ) (max (away_venue_matches.length : ℚ) 1)
      let recent_win_rate ← pyDiv (recent_wins : ℚ) (recent_matches.length : ℚ)
      let current_season_win_rate ←
        pyDiv (current_season_wins : ℚ) (max (current_season_matches.length : ℚ) 1)
      let dominance ← pyDiv ((wins : ℚ) - (losses : ℚ)) (total_matches : ℚ)
      let goal_dominance ← pyDiv (goal_diff : ℚ) (max (total_goals : ℚ) 1)
      return [("h2h_total_matches", (total_matches : ℚ)),
              ("h2h_wins", (wins : ℚ)), ("h2h_draws", (draws : ℚ)),
              ("h2h_losses", (losses : ℚ)),
              ("h2h_win_rate", win_rate), ("h2h_draw_rate", draw_rate),
              ("h2h_loss_rate", loss_rate),
              ("h2h_goal_diff", (goal_diff : ℚ)), ("h2h_avg_goals", avg_goals),
              ("h2h_avg_goal_diff", avg_goal_diff),
              ("h2h_home_venue_matches", (home_venue_matches.length : ℚ)),
              ("h2h_home_venue_wins", (home_venue_wins : ℚ)),
              ("h2h_home_venue_win_rate", home_venue_win_rate),
              ("h2h_away_venue_matches", (away_venue_matches.length : ℚ)),
              ("h2h_away_venue_wins", (away_venue_wins : ℚ)),
              ("h2h_away_venue_win_rate", away_venue_win_rate),
              ("h2h_recent_wins", (recent_wins : ℚ)),
              ("h2h_recent_goal_diff", (recent_goal_diff : ℚ)),
              ("h2h_recent_win_rate", recent_win_rate),
              ("h2h_current_season_matches", (current_season_matches.length : ℚ)),
              ("h2h_current_season_wins", (current_season_wins : ℚ)),
              ("h2h_current_season_win_rate", current_season_win_rate),
              ("h2h_dominance", dominance),
              ("h2h_goal_dominance", goal_dominance)]

/-- Query predicate of `get_extended_h2h_features`: strictly before the match
date, status FINISHED, both scores present, either orientation of the pair. -/
def extendedH2HPred (home_team_id away_team_id : Int) (match_date : Date)
    (m : Match) : Bool :=
  dateLt m.utc_date match_date && m.status == "FINISHED" &&
    m.home_score.isSome && m.away_score.isSome &&
    h2hPairPred home_team_id away_team_id m

/-- Loop body of `get_extended_h2h_features`: reorient to the home team's
perspective, skipping rows with a missing score (`continue`; unreachable after
the query filter, kept faithful to the source). -/
def extendedH2HRowOf (home_team_id : Int) (m : Match) : Option H2HRowE :=
  let is_home_team_home := m.home_team_id == home_team_id
  let home_score := if is_home_team_home then m.home_score else m.away_score
  let away_score := if is_home_team_home then m.away_score else m.home_score
  let venue := if is_home_team_home then "home" else "away"
  match home_score, away_score with
  | some hs, some as_ =>
      let result : H2HResult :=
        if hs > as_ then .win else if hs = as_ then .draw else .loss
      some { date := m.utc_date, home_score := hs, away_score := as_,
             result := result, venue := venue, goal_diff := hs - as_,
             total_goals := hs + as_, season := m.season }
  | _, _ => none

/-- `get_extended_h2h_features`: up to `limit` most recent finished meetings
between the pair strictly before `match_date` (newest first); defaults when
there are none. -/
def get_extended_h2h_features (db : Db) (home_team_id away_team_id : Int)
    (match_date : Date) (limit : Nat) : Except PyErr (List (String × ℚ)) :=
  let selected :=
    (sortByLe (fun a b => dateLe b.utc_date a.utc_date)
        (db.matchTable.filter
          (extendedH2HPred home_team_id away_team_id match_date))).take limit
  if selected.isEmpty then .ok get_default_h2h_features
  else
    compute_extended_h2h_features
      (selected.filterMap (extendedH2HRowOf home_team_id))

/-- Previous-season standings of one team as used by
`get_previous_season_standings`. -/
structure PrevSeasonData where
  position : Int
  points : Int
  goal_diff : Int
  played_games : Int
deriving DecidableEq, Repr

/-- Per-team lookup of `get_previous_season_standings`: the final (matchday 38)
snapshot of the previous season; if absent, fall back to **any** stored
snapshot of the team from the newest season on record; if still absent, the
defaults (position 10, points 50, goal diff 0, 38 games). -/
def prevSeasonDataFor (db : Db) (team_id : Int) (current_season : Int) :
    PrevSeasonData :=
  let prev_season := current_season - 1
  let primary := db.snapshots.find? (fun s =>
    s.season == prev_season && s.team_id == team_id && s.matchday == 38)
  let resolved :=
    match primary with
    | some s => some s
    | none =>
        (sortByLe (fun (a b : StandingsSnapshot) => decide (b.season ≤ a.season))
          (db.snapshots.filter (fun s => s.team_id == team_id))).head?
  match resolved with
  | some s => { position := s.position, points := s.points,
                goal_diff := s.goal_diff, played_games := s.played_games }
  | none => { position := 10, points := 50, goal_diff := 0, played_games := 38 }

/-- `get_previous_season_standings`: previous-season features of both teams,
with the per-game and quality divisions. -/
def get_previous_season_standings (db : Db) (home_team_id away_team_id : Int)
    (current_season : Int) : Except PyErr (List (String × ℚ)) := do
  let home_data := prevSeasonDataFor db home_team_id current_season
  let away_data := prevSeasonDataFor db away_team_id current_season
  let home_ppg ← pyDiv (home_data.points : ℚ) (home_data.played_games : ℚ)
  let away_ppg ← pyDiv (away_data.points : ℚ) (away_data.played_games : ℚ)
  let diff_ppg ← pyDiv ((home_data.points - away_data.points : Int) : ℚ) 38
  let home_quality ← pyDiv 1 (home_data.position : ℚ)
  let away_quality ← pyDiv 1 (away_data.position : ℚ)
  return [("prev_season_home_position", (home_data.position : ℚ)),
          ("prev_season_away_position", (away_data.position : ℚ)),
          ("prev_season_home_points", (home_data.points : ℚ)),
          ("prev_season_away_points", (away_data.points : ℚ)),
          ("prev_season_home_goal_diff", (home_data.goal_diff : ℚ)),
          ("prev_season_away_goal_diff", (away_data.goal_diff : ℚ)),
          ("prev_season_diff_position",
            ((home_data.position - away_data.position : Int) : ℚ)),
          ("prev_season_diff_points",
            ((home_data.points - away_data.points : Int) : ℚ)),
          ("prev_season_diff_goal_diff",
            ((home_data.goal_diff - away_data.goal_diff : Int) : ℚ)),
          ("prev_season_home_points_per_game", home_ppg),
          ("prev_season_away_points_per_game", away_ppg),
          ("prev_season_diff_points_per_game", diff_ppg),
          ("prev_season_home_quality", home_quality),
          ("prev_season_away_quality", away_quality),
          ("prev_season_diff_quality", home_quality - away_quality)]

/-- Lift a numeric feature dict into the general feature-map representation. -/
def toFeatMap (m : List (String × ℚ)) : FeatMap :=
  m.map (fun p => (p.1, .num p.2))

/-- `get_prioritized_match_features`: union of head-to-head, previous-season,
current-form and current-standings features, then the context flags, in
priority order. -/
def get_prioritized_match_features (db : Db) (m : Match) :
    Except PyErr FeatMap := do
  let h2h_features ← get_extended_h2h_features db m.home_team_id m.away_team_id
      m.utc_date 10
  let prev_season_features ← get_previous_season_standings db m.home_team_id
      m.away_team_id m.season
  let current_form_features := get_match_form_features db m 5
  let current_standings_features ← get_match_standings_features db m
  let all_features :=
    dictUnion
      (dictUnion
        (dictUnion (toFeatMap h2h_features) (toFeatMap prev_season_features))
        (dictUnion current_form_features current_standings_features))
      [("home_flag", .num 1),
       ("same_city",
         .num (match m.city with
               | some c => if c = "London" || c = "Manchester" || c = "Liverpool"
                           then 1 else 0
               | none => 0))]
  return all_features

/-- `get_prioritized_feature_columns`: the fixed, priority-ordered feature
schema. -/
def get_prioritized_feature_columns : List String :=
  ["h2h_total_matches", "h2h_wins", "h2h_draws", "h2h_losses", "h2h_win_rate",
   "h2h_draw_rate", "h2h_loss_rate", "h2h_goal_diff", "h2h_avg_goals",
   "h2h_avg_goal_diff", "h2h_home_venue_matches", "h2h_home_venue_wins",
   "h2h_home_venue_win_rate", "h2h_away_venue_matches", "h2h_away_venue_wins",
   "h2h_away_venue_win_rate", "h2h_recent_wins", "h2h_recent_goal_diff",
   "h2h_recent_win_rate", "h2h_current_season_matches", "h2h_current_season_wins",
   "h2h_current_season_win_rate", "h2h_dominance", "h2h_goal_dominance",
   "prev_season_home_position", "prev_season_away_position", "prev_season_home_points",
   "prev_season_away_points", "prev_season_home_goal_diff", "prev_season_away_goal_diff",
   "prev_season_diff_position", "prev_season_diff_points", "prev_season_diff_goal_diff",
   "prev_season_home_points_per_game", "prev_season_away_points_per_game",
   "prev_season_diff_points_per_game", "prev_season_home_quality", "prev_season_away_quality",
   "prev_season_diff_quality",
   "diff_form_ppg", "diff_goals_for_per_match", "diff_goals_against_per_match",
   "diff_goal_diff_per_match", "diff_rest_days", "diff_position", "diff_points",
   "diff_goal_diff", "diff_rank_delta", "diff_table_strength",
   "home_flag", "same_city"]

/-! ## ml/features/build.py -/

/-- `build_match_features`: the prioritized features plus the match
metadata entries. -/
def build_match_features (db : Db) (m : Match) : Except PyErr FeatMap := do
  let all_features ← get_prioritized_match_features db m
  return dictUnion all_features
    [("match_id", .num m.id), ("season", .num m.season),
     ("matchday", .num m.matchday), ("home_team_id", .num m.home_team_id),
     ("away_team_id", .num m.away_team_id)]

/-- `save_features_to_db`: upsert of the `FeaturesMatch` row for a match. -/
def save_features_to_db (db : Db) (match_id : Int) (features : FeatMap) : Db :=
  if db.featuresCache.any (fun r => r.match_id == match_id) then
    { db with featuresCache := db.featuresCache.map (fun r =>
        if r.match_id == match_id then { r with feature_json := features }
        else r) }
  else
    { db with featuresCache := db.featuresCache ++
        [{ match_id := match_id, feature_json := features }] }

/-- Errors of `get_features_for_match`: the `ValueError` for an unknown match
id, or a propagated Python error from the build chain. -/
inductive BuildErr where
  | matchNotFound
  | pyErr (e : PyErr)
deriving DecidableEq, Repr

/-- `get_features_for_match`: return the persisted feature JSON when present;
otherwise find the match (ValueError when unknown), build its features, persist
them, and return them. -/
def get_features_for_match (db : Db) (match_id : Int) :
    Except BuildErr (FeatMap × Db) :=
  match db.featuresCache.find? (fun r => r.match_id == match_id) with
  | some record => .ok (record.feature_json, db)
  | none =>
      match db.matchTable.find? (fun m => m.id == match_id) with
      | none => .error .matchNotFound
      | some m =>
          match build_match_features db m with
          | .error e => .error (.pyErr e)
          | .ok features =>
              .ok (features, save_features_to_db db match_id features)

/-! ## ml/training/dataset.py and api/ml_api.py -/

/-- `get_feature_columns` (dataset.py): delegates to the prioritized schema. -/
def get_feature_columns : List String :=
  get_prioritized_feature_columns

/-- Numeric coercion applied by the serving encoder to a raw feature value. -/
def encodeFVal : FVal → ℚ
  | .num q => q
  | .bool b => if b then 1 else 0
  | .qual _ => 0

/-- The serving-time encoding loop of `predict_match` (ml_api.py lines
120-127): walk the schema in order, defaulting a missing key to `0.0`
(`features.get(col, 0.0)`); extra keys of the feature map are never visited. -/
def encode_features (features : FeatMap) : List ℚ :=
  get_feature_columns.map (fun col =>
    match dictGet? features col with
    | some v => encodeFVal v
    | none => 0)

/-- The in-memory model artifact of the serving layer: scaler and classifier
as abstract functions, plus the metadata version string. -/
structure Artifact where
  scaler : List ℚ → List ℚ
  clf : List ℚ → ℚ × ℚ × ℚ
  model_version : String

/-- Caller-visible error categories of `predict_match`. -/
inductive ApiError where
  | serviceNotReady
  | notFound
  | notPredictable
  | insufficientHistory
deriving DecidableEq, Repr

/-- The response payload of `predict_match` (probability triple ordered
away/draw/home in the source array). -/
structure PredictionResponse where
  match_id : Int
  p_away : ℚ
  p_draw : ℚ
  p_home : ℚ
  model_version : String
  calibrated : Bool
deriving DecidableEq, Repr

/-- Prediction upsert of `predict_match`: update the existing row for the
match id or add a new one. -/
def upsertPrediction (db : Db) (rec : PredictionRec) : Db :=
  if db.predictions.any (fun p => p.match_id == rec.match_id) then
    { db with predictions := db.predictions.map (fun p =>
        if p.match_id == rec.match_id then
          { p with p_home := rec.p_home, p_draw := rec.p_draw,
                   p_away := rec.p_away, model_version := rec.model_version }
        else p) }
  else
    { db with predictions := db.predictions ++ [rec] }

/-- `predict_match` (ml_api.py): load the model (service-not-ready when no
artifact exists), look up the match (not-found), reject finished matches
(not-predictable), fetch or build the features (insufficient-history on any
failure), encode them in schema order with silent `0.0` defaults, scale,
classify, upsert the prediction row, and return the probability triple. -/
def predict_match (artifact? : Option Artifact) (db : Db) (match_id : Int) :
    Except ApiError (PredictionResponse × Db) := do
  match artifact? with
  | none => .error .serviceNotReady
  | some artifact =>
      match db.matchTable.find? (fun m => m.id == match_id) with
      | none => .error .notFound
      | some m =>
          if m.status = "FINISHED" then .error .notPredictable
          else
            match get_features_for_match db match_id with
            | .error _ => .error .insufficientHistory
            | .ok (features, db') =>
                let x := encode_features features
                let x_scaled := artifact.scaler x
                let probs := artifact.clf x_scaled
                let db'' := upsertPrediction db'
                  { match_id := match_id, p_home := probs.2.2, p_draw := probs.2.1,
                    p_away := probs.1, model_version := artifact.model_version }
                .ok ({ match_id := match_id, p_away := probs.1, p_draw := probs.2.1,
                       p_home := probs.2.2,
                       model_version := artifact.model_version,
                       calibrated := false }, db'')

/-! ## ml/training/train.py and ml/evaluation/learn_from_mistakes.py -/

/-- Wall-clock instant at which a training run saves its artifact; the
version strings truncate it to day (fit) or day-and-minute (retrain)
granularity. -/
structure TrainTime where
  day : Int
  minuteOfDay : Int
deriving DecidableEq, Repr

/-- The version id `f"{algo}_{datetime.now().strftime('%Y-%m-%d')}"` produced
by `fit`: the algorithm name paired with the calendar day. -/
structure FitVersion where
  algo : String
  day : Int
deriving DecidableEq, Repr

def fit_model_version (algo : String) (now : TrainTime) : FitVersion :=
  { algo := algo, day := now.day }

/-- The version id `f"{algorithm}_retrained_{...strftime('%Y-%m-%d_%H%M')}"`
produced by `_save_retrained_model`: algorithm, day, and minute of day. -/
structure RetrainVersion where
  algo : String
  day : Int
  minuteOfDay : Int
deriving DecidableEq, Repr

def retrain_model_version (algo : String) (now : TrainTime) : RetrainVersion :=
  { algo := algo, day := now.day, minuteOfDay := now.minuteOfDay }

/-- The metadata document written alongside the blobs. -/
structure MetaJson where
  model_version : FitVersion
deriving DecidableEq, Repr

/-- The model directory at the fixed serving paths `model.pkl`, `scaler.pkl`
and `metadata.json`; `predict_match`'s `load_model` reads exactly these
paths. -/
structure ModelDir where
  model_pkl : Option String
  scaler_pkl : Option String
  metadata_json : Option MetaJson
deriving DecidableEq, Repr

/-- The sequence of directory states produced by the save section of `fit`
(train.py lines 239-275): the model blob, then the scaler blob, then the
metadata are each written in place at the serving paths; there is no
temporary location or final pointer swap. -/
def fit_save_states (dir : ModelDir) (model_blob scaler_blob : String)
    (meta : MetaJson) : List ModelDir :=
  let s1 := { dir with model_pkl := some model_blob }
  let s2 := { s1 with scaler_pkl := some scaler_blob }
  let s3 := { s2 with metadata_json := some meta }
  [s1, s2, s3]

/-! ## Shared example data -/

/-- The empty database. -/
def emptyDb : Db := { matchTable := [], snapshots := [], h2hCache := [],
                      featuresCache := [], predictions := [] }

/-- A stored standings snapshot for matchday 1 of season 2024. -/
def snapC3 : StandingsSnapshot :=
  { season := 2024, matchday := 1, team_id := 1, position := 3,
    played_games := 1, points := 3, goals_for := 2, goals_against := 0,
    goal_diff := 2, snapshot_at := { year := 2024, ord := 10 } }

def dbC3 : Db := { emptyDb with snapshots := [snapC3] }

/-! ## Claim C3 -/

/-- C3, counterexample: with a snapshot stored for (season 2024, matchday 1,
team 1), `get_standings_at_matchday` at the requested matchday 1 returns that
very snapshot — `cold_start = false` and position 3, not the claimed
unconditional `cold_start = true` with position 10. -/
theorem C3_counterexample :
    (get_standings_at_matchday dbC3 2024 1 1).cold_start = false ∧
    (get_standings_at_matchday dbC3 2024 1 1).position = 3 := by
  constructor <;> decide

/-- C3, amended: for a requested matchday `m ≥ 2` the resolver reads the
snapshot of matchday `m − 1` only (snapshots of any other matchday are
ignored), but for matchday 1 the lookup is clamped to matchday 1 itself — it
behaves exactly as a request for matchday 2 — so the cold-start defaults are
returned only when no matchday-1 snapshot is stored. -/
theorem C3_standings_resolution :
    (∀ (db : Db) (season team_id : Int),
        get_standings_at_matchday db season 1 team_id =
          get_standings_at_matchday db season 2 team_id) ∧
    (∀ (db : Db) (season matchday team_id : Int) (s : StandingsSnapshot),
        2 ≤ matchday → s.matchday ≠ matchday - 1 →
        get_standings_at_matchday { db with snapshots := db.snapshots ++ [s] }
            season matchday team_id =
          get_standings_at_matchday db season matchday team_id) := by
  constructor
  · intro db season team_id
    unfold get_standings_at_matchday
    norm_num
  · intro db season matchday team_id s hmd hneq
    have hmax : max 1 (matchday - 1) = matchday - 1 := by omega
    unfold get_standings_at_matchday findSnapshot
    rw [hmax]
    simp only [List.find?_append]
    have hpred : (s.season == season && s.matchday == matchday - 1 &&
        s.team_id == team_id) = false := by
      have : (s.matchday == matchday - 1) = false := by
        simp [hneq]
      simp [this]
    simp [List.find?, hpred]

/-- C3, witness for the amended theorem at concrete inputs. -/
theorem C3_standings_resolution_witness :
    get_standings_at_matchday dbC3 2024 1 7 =
      get_standings_at_matchday dbC3 2024 2 7 ∧
    get_standings_at_matchday { dbC3 with snapshots := dbC3.snapshots ++ [snapC3] }
        2024 3 7 =
      get_standings_at_matchday dbC3 2024 3 7 :=
  ⟨C3_standings_resolution.1 dbC3 2024 7,
   C3_standings_resolution.2 dbC3 2024 3 7 snapC3 (by norm_num) (by decide)⟩

/-! ## Claim C7 -/

theorem histRowOf_eq_none {team_id : Int} {m : Match}
    (h : m.home_score = none ∨ m.away_score = none) :
    histRowOf team_id m = none := by
  unfold histRowOf
  rcases h with h | h <;>
    by_cases hb : (m.home_team_id == team_id) <;>
      simp only [h, hb, if_true, if_false] <;>
        cases m.home_score <;> cases m.away_score <;> simp

/-- C7: a team with zero finished matches in the season strictly before the
as-of date (every stored match of the team in that season before the date has
a missing score) gets exactly the neutral defaults
`ppg = goals-for = goals-against = 1.0, goal-diff = 0.0, rest = 7.0` with a
sample-count marker of 0 matches available. -/
theorem C7_form_cold_start_defaults (db : Db) (team_id season : Int)
    (d : Date) (w : Nat)
    (h : ∀ m ∈ db.matchTable, teamHistoryPred team_id season d m = true →
         m.home_score = none ∨ m.away_score = none) :
    get_team_form_features db team_id season d w =
      { form_ppg := 1, goals_for_per_match := 1, goals_against_per_match := 1,
        goal_diff_per_match := 0, rest_days := 7, matches_available := 0 } := by
  have hhist : get_team_match_history db team_id season d = [] := by
    unfold get_team_match_history
    rw [List.filterMap_eq_nil_iff]
    intro r hr
    have hr' := mem_sortByLe.1 hr
    have hmem := List.mem_filter.1 hr'
    exact histRowOf_eq_none (h r hmem.1 hmem.2)
  simp [get_team_form_features, hhist, defaultFormFeatures]

/-- C7, witness: the empty database at concrete inputs. -/
theorem C7_form_cold_start_defaults_witness :
    get_team_form_features emptyDb 1 2024 { year := 2024, ord := 50 } 5 =
      { form_ppg := 1, goals_for_per_match := 1, goals_against_per_match := 1,
        goal_diff_per_match := 0, rest_days := 7, matches_available := 0 } :=
  C7_form_cold_start_defaults emptyDb 1 2024 { year := 2024, ord := 50 } 5
    (by intro m hm; cases hm)

/-! ## Claim C10 -/

/-- C10: a team whose leakage-safe history before the as-of date holds exactly
one finished match gets the same neutral defaults as the zero-history case —
`shift(1)` leaves the single rolling window with no value (NaN) — while the
sample-count marker reports 1 match available. -/
theorem C10_single_match_defaults (db : Db) (team_id season : Int)
    (d : Date) (w : Nat) (r : HistRow)
    (h : get_team_match_history db team_id season d = [r]) :
    get_team_form_features db team_id season d w =
      { form_ppg := 1, goals_for_per_match := 1, goals_against_per_match := 1,
        goal_diff_per_match := 0, rest_days := 7, matches_available := 1 } := by
  simp [get_team_form_features, h, compute_rolling_features, sortByLe,
        insertSorted, rollMeanAt, defaultFormFeatures]

/-- A season-2024 finished match used by the C10 witness database. -/
def mC10 : Match :=
  { id := 1, season := 2024, utc_date := { year := 2024, ord := 1 },
    matchday := 1, status := "FINISHED", home_team_id := 1, away_team_id := 2,
    home_score := some 2, away_score := some 1, city := none }

def dbC10 : Db := { emptyDb with matchTable := [mC10] }

/-- The history row `get_team_match_history` builds from `mC10` for team 1. -/
def rC10 : HistRow :=
  { team_id := 1, opponent_id := 2, is_home := true,
    kickoff := { year := 2024, ord := 1 }, goals_for := 2, goals_against := 1,
    points := 3 }

/-- C10, witness at a concrete one-match database. -/
theorem C10_single_match_defaults_witness :
    get_team_match_history dbC10 1 2024 { year := 2024, ord := 30 } = [rC10] ∧
    get_team_form_features dbC10 1 2024 { year := 2024, ord := 30 } 5 =
      { form_ppg := 1, goals_for_per_match := 1, goals_against_per_match := 1,
        goal_diff_per_match := 0, rest_days := 7, matches_available := 1 } :=
  ⟨by decide,
   C10_single_match_defaults dbC10 1 2024 { year := 2024, ord := 30 } 5 rC10
     (by decide)⟩

/-! ## Claim C9 -/

/-- A scheduled (score-less) meeting of teams 1 and 2, dated before the
as-of date used below. -/
def mC9 : Match :=
  { id := 3, season := 2024, utc_date := { year := 2024, ord := 5 },
    matchday := 2, status := "SCHEDULED", home_team_id := 1, away_team_id := 2,
    home_score := none, away_score := none, city := none }

def dbC9 : Db := { emptyDb with matchTable := [mC9] }

/-- C9: the basic head-to-head selection has no status or score filter, so a
recorded meeting dated strictly before the as-of date whose scores are null is
selected, and the win/draw/loss comparison on the `None` scores raises
`TypeError` instead of skipping the record. -/
theorem C9_h2h_not_total :
    get_head_to_head_matches dbC9 1 2 { year := 2024, ord := 50 } 5 =
      .error .typeError := by
  decide

/-! ## Claim C5 -/

/-- A finished meeting of teams 1 and 2 in 2024, before both request dates
used below. -/
def m0C5 : Match :=
  { id := 50, season := 2024, utc_date := { year := 2024, ord := 10 },
    matchday := 1, status := "FINISHED", home_team_id := 1, away_team_id := 2,
    home_score := some 2, away_score := some 0, city := none }

/-- The request date D1 the cached entry was computed for. -/
def dC5a : Date := { year := 2024, ord := 100 }

/-- A later request date D2 > D1 in the same year. -/
def dC5b : Date := { year := 2024, ord := 200 }

/-- A cache entry computed for `dC5a` holding a sentinel payload
distinguishable from the freshly computed features. -/
def entryC5 : H2HCacheEntry :=
  { home_team_id := 1, away_team_id := 2, season := 2024,
    payload := { match_date := dC5a, features := [("h2h_wins", 99)] } }

def dbC5 : Db := { emptyDb with matchTable := [m0C5], h2hCache := [entryC5] }

/-- C5, counterexample: a second request dated exactly D1 does **not** reuse
the entry computed for D1 (the code requires the stored date to be strictly
earlier, so it recomputes and overwrites), while a later request dated
D2 > D1 **does** reuse the stored entry unchanged — the exact opposite of the
claimed behaviour on both sides. -/
theorem C5_counterexample :
    get_h2h_features dbC5 1 2 dC5a 5 ≠
      .ok (entryC5.payload.features, dbC5) ∧
    get_h2h_features dbC5 1 2 dC5b 5 =
      .ok (entryC5.payload.features, dbC5) := by
  constructor <;> decide

/-- C5, amended: an H2H cache entry is reused exactly when its stored
computed-for date is strictly earlier than the newly requested date (the
request then returns the stored features with the database unchanged);
otherwise — including a second request dated exactly D1 — the features are
recomputed and the entry is overwritten. -/
theorem C5_cache_policy (db : Db) (home away : Int) (d : Date) (lim : Nat) :
    (∀ e, findH2HCacheEntry db home away d = some e →
        ((dateLt e.payload.match_date d = true →
            get_h2h_features db home away d lim = .ok (e.payload.features, db)) ∧
         (dateLt e.payload.match_date d = false →
            get_h2h_features db home away d lim =
              recompute_h2h db home away d lim))) ∧
    (findH2HCacheEntry db home away d = none →
        get_h2h_features db home away d lim =
          recompute_h2h db home away d lim) := by
  constructor
  · intro e he
    constructor <;> intro hlt <;> simp [get_h2h_features, he, hlt]
  · intro he
    simp [get_h2h_features, he]

/-- C5, witness for the amended theorem: the later-dated request reuses the
stored sentinel unchanged; the same-dated request goes down the recompute
path. -/
theorem C5_cache_policy_witness :
    get_h2h_features dbC5 1 2 dC5b 5 =
      .ok (entryC5.payload.features, dbC5) ∧
    get_h2h_features dbC5 1 2 dC5a 5 = recompute_h2h dbC5 1 2 dC5a 5 :=
  ⟨((C5_cache_policy dbC5 1 2 dC5b 5).1 entryC5 (by decide)).1 (by decide),
   ((C5_cache_policy dbC5 1 2 dC5a 5).1 entryC5 (by decide)).2 (by decide)⟩

/-! ## Claim C1 -/

/-- The scheduled match M used for the leakage counterexample: season 2024,
matchday 1. -/
def mC1 : Match :=
  { id := 9, season := 2024, utc_date := { year := 2024, ord := 100 },
    matchday := 1, status := "SCHEDULED", home_team_id := 1, away_team_id := 2,
    home_score := none, away_score := none, city := none }

/-- A standings snapshot of M's own season recorded after M.date (the final
table of season 2024); the previous-season fallback query picks it up. -/
def snapLeak : StandingsSnapshot :=
  { season := 2024, matchday := 38, team_id := 1, position := 1,
    played_games := 38, points := 90, goals_for := 95, goals_against := 20,
    goal_diff := 75, snapshot_at := { year := 2025, ord := 30 } }

/-- The database after inserting the later-recorded snapshot. -/
def dbC1leak : Db := { emptyDb with snapshots := emptyDb.snapshots ++ [snapLeak] }

set_option maxRecDepth 8000

/-- C1, counterexample: the feature vector of M changes when a standings
snapshot recorded on or after M.date is inserted — the fallback of
`get_previous_season_standings` reads the team's newest stored snapshot with
no season or date restriction, so the computation is not leakage-safe: the
`prev_season_home_position` feature flips from the default 10 to the inserted
snapshot's position 1. -/
theorem C1_counterexample :
    dateLe mC1.utc_date snapLeak.snapshot_at = true ∧
    (build_match_features emptyDb mC1).map
        (fun fm => dictGet? fm "prev_season_home_position") =
      .ok (some (.num 10)) ∧
    (build_match_features dbC1leak mC1).map
        (fun fm => dictGet? fm "prev_season_home_position") =
      .ok (some (.num 1)) ∧
    build_match_features dbC1leak mC1 ≠ build_match_features emptyDb mC1 := by
  refine ⟨by decide, ?_, ?_, ?_⟩
  · decide
  · decide
  · intro h
    have := congrArg (Except.map
      (fun fm => dictGet? fm "prev_season_home_position")) h
    revert this
    decide

theorem dateLt_eq_false_of_dateLe {a b : Date} (h : dateLe a b = true) :
    dateLt b a = false := by
  cases a with
  | mk ya oa =>
      cases b with
      | mk yb ob =>
          simp only [dateLe, dateLt, Bool.or_eq_true, Bool.and_eq_true,
            decide_eq_true_eq, beq_iff_eq, Date.mk.injEq] at h
          simp only [dateLt, Bool.or_eq_false_iff, Bool.and_eq_false_iff,
            decide_eq_false_iff_not, beq_eq_false_iff_ne, ne_eq, not_lt]
          omega

theorem filter_append_single_false {p : α → Bool} {l : List α} {m : α}
    (h : p m = false) : (l ++ [m]).filter p = l.filter p := by
  simp [List.filter_append, h]

/-- C1, amended: leakage-safety holds for match records — the team-history and
extended head-to-head selections read only matches dated strictly before the
as-of date, so inserting a match dated on or after it leaves them unchanged —
but it fails for standings snapshots, where the previous-season fallback can
read a snapshot recorded on or after M.date (see the counterexample). -/
theorem C1_match_record_leakage_safety (db : Db) (m : Match)
    (team_id season home away : Int) (d : Date) (lim : Nat)
    (hm : dateLe d m.utc_date = true) :
    get_team_match_history { db with matchTable := db.matchTable ++ [m] }
        team_id season d =
      get_team_match_history db team_id season d ∧
    get_extended_h2h_features { db with matchTable := db.matchTable ++ [m] }
        home away d lim =
      get_extended_h2h_features db home away d lim := by
  have hlt := dateLt_eq_false_of_dateLe hm
  constructor
  · unfold get_team_match_history
    rw [show ({ db with matchTable := db.matchTable ++ [m] } : Db).matchTable
          = db.matchTable ++ [m] from rfl,
        filter_append_single_false (by simp [teamHistoryPred, hlt])]
  · unfold get_extended_h2h_features
    rw [show ({ db with matchTable := db.matchTable ++ [m] } : Db).matchTable
          = db.matchTable ++ [m] from rfl,
        filter_append_single_false (by simp [extendedH2HPred, hlt])]

/-- C1, witness for the amended theorem at concrete inputs. -/
theorem C1_match_record_leakage_safety_witness :
    get_team_match_history { emptyDb with matchTable := emptyDb.matchTable ++ [mC1] }
        1 2024 { year := 2024, ord := 50 } =
      get_team_match_history emptyDb 1 2024 { year := 2024, ord := 50 } ∧
    get_extended_h2h_features { emptyDb with matchTable := emptyDb.matchTable ++ [mC1] }
        1 2 { year := 2024, ord := 50 } 10 =
      get_extended_h2h_features emptyDb 1 2 { year := 2024, ord := 50 } 10 :=
  C1_match_record_leakage_safety emptyDb mC1 1 2024 1 2
    { year := 2024, ord := 50 } 10 (by decide)

/-! ## Claim C2 -/

/-- A concrete loaded artifact (identity scaler, constant classifier). -/
def exArtifact : Artifact :=
  { scaler := id, clf := fun _ => (1, 0, 0), model_version := "v1" }

/-- A schedulable match whose stored feature vector is the empty map. -/
def mC2 : Match :=
  { id := 7, season := 2024, utc_date := { year := 2024, ord := 120 },
    matchday := 5, status := "TIMED", home_team_id := 1, away_team_id := 2,
    home_score := none, away_score := none, city := none }

/-- The cached features record for match 7: a vector missing every schema
key. -/
def fmRecC2 : FeaturesMatchRec := { match_id := 7, feature_json := [] }

/-- Database whose features cache stores, for match 7, a vector missing every
schema key. -/
def dbC2 : Db :=
  { emptyDb with matchTable := [mC2], featuresCache := [fmRecC2] }

/-- C2, counterexample: the stored feature vector for match 7 is missing the
schema key `h2h_wins` (indeed every schema key), yet `predict_match` does not
fail with a schema error — it silently encodes the missing keys as `0.0` and
returns a successful prediction. -/
theorem C2_counterexample :
    "h2h_wins" ∈ get_feature_columns ∧
    dictGet? [] "h2h_wins" = none ∧
    predict_match (some exArtifact) dbC2 7 =
      .ok ({ match_id := 7, p_away := 1, p_draw := 0, p_home := 0,
             model_version := "v1", calibrated := false },
           { dbC2 with predictions :=
               [{ match_id := 7, p_home := 0, p_draw := 0, p_away := 1,
                  model_version := "v1" }] }) := by
  refine ⟨by decide, by decide, by decide⟩

/-- C2, amended: with an artifact loaded, a found, non-finished match and a
cached feature vector, `predict_match` always succeeds: the vector is encoded
strictly in the schema order of `get_feature_columns`, any key missing from
the vector is silently defaulted to `0.0` and extra keys are ignored — a
key/schema mismatch is never surfaced as an error. -/
theorem C2_encoding_defaults (art : Artifact) (db : Db) (match_id : Int)
    (rec : FeaturesMatchRec) (m : Match)
    (h1 : db.featuresCache.find? (fun r => r.match_id == match_id) = some rec)
    (h2 : db.matchTable.find? (fun mm => mm.id == match_id) = some m)
    (h3 : m.status ≠ "FINISHED") :
    predict_match (some art) db match_id =
      .ok ({ match_id := match_id,
             p_away := (art.clf (art.scaler (encode_features rec.feature_json))).1,
             p_draw := (art.clf (art.scaler (encode_features rec.feature_json))).2.1,
             p_home := (art.clf (art.scaler (encode_features rec.feature_json))).2.2,
             model_version := art.model_version, calibrated := false },
           upsertPrediction db
             { match_id := match_id,
               p_home := (art.clf (art.scaler (encode_features rec.feature_json))).2.2,
               p_draw := (art.clf (art.scaler (encode_features rec.feature_json))).2.1,
               p_away := (art.clf (art.scaler (encode_features rec.feature_json))).1,
               model_version := art.model_version }) ∧
    encode_features rec.feature_json =
      get_feature_columns.map (fun col =>
        match dictGet? rec.feature_json col with
        | some v => encodeFVal v
        | none => 0) := by
  constructor
  · simp [predict_match, get_features_for_match, h1, h2, h3]
  · rfl

/-- C2, witness for the amended theorem at the concrete database. -/
theorem C2_encoding_defaults_witness :
    predict_match (some exArtifact) dbC2 7 =
      .ok ({ match_id := 7,
             p_away := (exArtifact.clf (exArtifact.scaler (encode_features fmRecC2.feature_json))).1,
             p_draw := (exArtifact.clf (exArtifact.scaler (encode_features []))).2.1,
             p_home := (exArtifact.clf (exArtifact.scaler (encode_features []))).2.2,
             model_version := exArtifact.model_version, calibrated := false },
           upsertPrediction dbC2
             { match_id := 7,
               p_home := (exArtifact.clf (exArtifact.scaler (encode_features []))).2.2,
               p_draw := (exArtifact.clf (exArtifact.scaler (encode_features []))).2.1,
               p_away := (exArtifact.clf (exArtifact.scaler (encode_features []))).1,
               model_version := exArtifact.model_version }) ∧
    encode_features [] =
      get_feature_columns.map (fun col =>
        match dictGet? [] col with
        | some v => encodeFVal v
        | none => 0) :=
  C2_encoding_defaults exArtifact dbC2 7 fmRecC2
    mC2 (by decide) (by decide) (by decide)

/-! ## Claim C8 -/

/-- C8: with no artifact loaded `predict_match` fails with service-not-ready;
with an artifact loaded an unknown match id fails with not-found; and a found
match with status FINISHED fails with not-predictable — for **every** artifact,
so the scaler and classifier are never invoked on a finished match. -/
theorem C8_predict_error_paths :
    (∀ (db : Db) (match_id : Int),
        predict_match none db match_id = .error .serviceNotReady) ∧
    (∀ (art : Artifact) (db : Db) (match_id : Int),
        db.matchTable.find? (fun m => m.id == match_id) = none →
        predict_match (some art) db match_id = .error .notFound) ∧
    (∀ (art : Artifact) (db : Db) (match_id : Int) (m : Match),
        db.matchTable.find? (fun mm => mm.id == match_id) = some m →
        m.status = "FINISHED" →
        predict_match (some art) db match_id = .error .notPredictable) := by
  refine ⟨fun db match_id => rfl, fun art db match_id h => by
    simp [predict_match, h], fun art db match_id m h hs => by
    simp [predict_match, h, hs]⟩

/-- A finished match for the C8 witness. -/
def mC8 : Match :=
  { id := 11, season := 2024, utc_date := { year := 2024, ord := 40 },
    matchday := 3, status := "FINISHED", home_team_id := 1, away_team_id := 2,
    home_score := some 1, away_score := some 0, city := none }

def dbC8 : Db := { emptyDb with matchTable := [mC8] }

/-- C8, witness: the three error paths at concrete inputs. -/
theorem C8_predict_error_paths_witness :
    predict_match none dbC8 11 = .error .serviceNotReady ∧
    predict_match (some exArtifact) dbC8 99 = .error .notFound ∧
    predict_match (some exArtifact) dbC8 11 = .error .notPredictable :=
  ⟨C8_predict_error_paths.1 dbC8 11,
   C8_predict_error_paths.2.1 exArtifact dbC8 99 (by decide),
   C8_predict_error_paths.2.2 exArtifact dbC8 11 mC8 (by decide) rfl⟩

/-! ## Claim C4 -/

theorem pyDiv_error {a b : ℚ} {e : PyErr} (H : pyDiv a b = .error e) :
    b = 0 := by
  unfold pyDiv at H
  by_cases hb : b = 0
  · exact hb
  · rw [if_neg hb] at H; exact Except.noConfusion H

theorem qmapGet_error {m : List (String × ℚ)} {k : String} {e : PyErr}
    (H : qmapGet m k = .error e) : e = .keyError := by
  unfold qmapGet at H
  cases h : m.find? (fun p => p.1 == k) with
  | none => rw [h] at H; injection H with h'; exact h'.symm
  | some p => rw [h] at H; exact Except.noConfusion H

theorem h2hRowOf_error {t : Int} {m : Match} {e : PyErr}
    (H : h2hRowOf t m = .error e) : e = .typeError := by
  unfold h2hRowOf at H
  rcases hh : m.home_score with _ | hs <;> rcases ha : m.away_score with _ | as_ <;>
    by_cases hb : (m.home_team_id == t) <;>
      simp only [hh, ha, hb, if_true, if_false] at H <;>
        first
          | (injection H with h'; exact h'.symm)
          | exact Except.noConfusion H

theorem exceptMapList_error {f : α → Except ε β} {l : List α} {e : ε}
    (H : exceptMapList f l = .error e) : ∃ x ∈ l, f x = .error e := by
  induction l with
  | nil => exact Except.noConfusion H
  | cons x xs ih =>
      unfold exceptMapList at H
      split at H
      · next e' heq =>
          injection H with h'
          exact ⟨x, List.mem_cons_self x xs, by rw [heq, h']⟩
      · next y heq =>
          split at H
          · next e' heq2 =>
              injection H with h'
              obtain ⟨z, hz, hfz⟩ := ih (by rw [heq2, h'])
              exact ⟨z, List.mem_cons_of_mem x hz, hfz⟩
          · next ys heq2 => exact Except.noConfusion H

theorem get_head_to_head_matches_error {db : Db} {a b : Int} {d : Date}
    {lim : Nat} {e : PyErr}
    (H : get_head_to_head_matches db a b d lim = .error e) : e = .typeError := by
  unfold get_head_to_head_matches at H
  obtain ⟨x, _, hfx⟩ := exceptMapList_error H
  exact h2hRowOf_error hfx

theorem compute_h2h_features_ne_error (rows : List H2HRow) (e : PyErr) :
    compute_h2h_features rows ≠ .error e := by
  intro H
  unfold compute_h2h_features at H
  by_cases hr : rows.isEmpty
  · rw [if_pos hr] at H; exact Except.noConfusion H
  · rw [if_neg hr] at H
    dsimp only at H
    split at H
    · next e' heq =>
        have hb := pyDiv_error heq
        have : rows.length ≠ 0 := by
          cases rows
          · simp at hr
          · simp
        exact this (by exact_mod_cast hb)
    · next v heq => exact Except.noConfusion H

theorem recompute_h2h_error {db : Db} {a b : Int} {d : Date} {lim : Nat}
    {e : PyErr} (H : recompute_h2h db a b d lim = .error e) :
    e = .typeError := by
  unfold recompute_h2h at H
  cases hg : get_head_to_head_matches db a b d lim with
  | error e' =>
      rw [hg] at H
      dsimp only [Bind.bind, Except.bind] at H
      injection H with h'
      exact h' ▸ get_head_to_head_matches_error hg
  | ok rows =>
      rw [hg] at H
      dsimp only [Bind.bind, Except.bind] at H
      cases hc : compute_h2h_features rows with
      | error e' => exact absurd hc (compute_h2h_features_ne_error rows e')
      | ok fs =>
          rw [hc] at H
          dsimp only [Bind.bind, Except.bind] at H
          exact Except.noConfusion H

theorem get_h2h_features_error {db : Db} {a b : Int} {d : Date} {lim : Nat}
    {e : PyErr} (H : get_h2h_features db a b d lim = .error e) :
    e = .typeError := by
  unfold get_h2h_features at H
  cases hf : findH2HCacheEntry db a b d with
  | some entry =>
      rw [hf] at H
      dsimp only at H
      by_cases hlt : dateLt entry.payload.match_date d
      · rw [if_pos hlt] at H; exact Except.noConfusion H
      · rw [if_neg hlt] at H; exact recompute_h2h_error H
  | none =>
      rw [hf] at H
      dsimp only at H
      exact recompute_h2h_error H

/-- C4: with zero prior finished meetings strictly before the as-of date, the
extended head-to-head computation returns exactly the neutral defaults —
win rate = loss rate = 0.5, draw rate = 0.0, average goals = the league-average
constant 2.5 — and the basic per-match head-to-head computation can never
raise a division error (all its denominators are clamped to at least 1). -/
theorem C4_h2h_neutral_defaults :
    (∀ (db : Db) (home away : Int) (d : Date) (lim : Nat),
        (∀ m ∈ db.matchTable, extendedH2HPred home away d m = false) →
        get_extended_h2h_features db home away d lim =
          .ok get_default_h2h_features) ∧
    qmapGet get_default_h2h_features "h2h_win_rate" = .ok (1/2) ∧
    qmapGet get_default_h2h_features "h2h_loss_rate" = .ok (1/2) ∧
    qmapGet get_default_h2h_features "h2h_draw_rate" = .ok 0 ∧
    qmapGet get_default_h2h_features "h2h_avg_goals" = .ok (5/2) ∧
    (∀ (db : Db) (m : Match),
        get_match_h2h_features db m ≠ .error .zeroDivisionError) := by
  refine ⟨?_, rfl, rfl, rfl, rfl, ?_⟩
  · intro db home away d lim h
    have hfil : db.matchTable.filter (extendedH2HPred home away d) = [] := by
      rw [List.filter_eq_nil_iff]
      intro a ha
      simp [h a ha]
    unfold get_extended_h2h_features
    rw [hfil]
    simp [sortByLe]
  · intro db m H
    unfold get_match_h2h_features at H
    cases h0 : get_h2h_features db m.home_team_id m.away_team_id m.utc_date 5 with
    | error e =>
        rw [h0] at H
        dsimp only [Bind.bind, Except.bind] at H
        injection H with h'
        exact PyErr.noConfusion (h' ▸ get_h2h_features_error h0)
    | ok pr =>
        obtain ⟨fs, db2⟩ := pr
        rw [h0] at H
        dsimp only [Bind.bind, Except.bind] at H
        cases h1 : qmapGet fs "h2h_wins" with
        | error e1 =>
            rw [h1] at H
            dsimp only [Bind.bind, Except.bind] at H
            injection H with h'
            exact PyErr.noConfusion (h' ▸ qmapGet_error h1)
        | ok wins =>
        rw [h1] at H
        dsimp only [Bind.bind, Except.bind] at H
        cases h2 : qmapGet fs "h2h_draws" with
        | error e2 =>
            rw [h2] at H
            dsimp only [Bind.bind, Except.bind] at H
            injection H with h'
            exact PyErr.noConfusion (h' ▸ qmapGet_error h2)
        | ok draws =>
        rw [h2] at H
        dsimp only [Bind.bind, Except.bind] at H
        cases h3 : qmapGet fs "h2h_losses" with
        | error e3 =>
            rw [h3] at H
            dsimp only [Bind.bind, Except.bind] at H
            injection H with h'
            exact PyErr.noConfusion (h' ▸ qmapGet_error h3)
        | ok losses =>
        rw [h3] at H
        dsimp only [Bind.bind, Except.bind] at H
        cases h4 : qmapGet fs "h2h_goal_diff" with
        | error e4 =>
            rw [h4] at H
            dsimp only [Bind.bind, Except.bind] at H
            injection H with h'
            exact PyErr.noConfusion (h' ▸ qmapGet_error h4)
        | ok goal_diff =>
        rw [h4] at H
        dsimp only [Bind.bind, Except.bind] at H
        cases h5 : qmapGet fs "h2h_avg_goals" with
        | error e5 =>
            rw [h5] at H
            dsimp only [Bind.bind, Except.bind] at H
            injection H with h'
            exact PyErr.noConfusion (h' ▸ qmapGet_error h5)
        | ok avg_goals =>
        rw [h5] at H
        dsimp only [Bind.bind, Except.bind] at H
        cases h6 : qmapGet fs "h2h_home_venue_wins" with
        | error e6 =>
            rw [h6] at H
            dsimp only [Bind.bind, Except.bind] at H
            injection H with h'
            exact PyErr.noConfusion (h' ▸ qmapGet_error h6)
        | ok hvw =>
        rw [h6] at H
        dsimp only [Bind.bind, Except.bind] at H
        cases h7 : qmapGet fs "h2h_home_venue_matches" with
        | error e7 =>
            rw [h7] at H
            dsimp only [Bind.bind, Except.bind] at H
            injection H with h'
            exact PyErr.noConfusion (h' ▸ qmapGet_error h7)
        | ok hvm =>
        rw [h7] at H
        dsimp only [Bind.bind, Except.bind] at H
        cases h8 : qmapGet fs "h2h_matches_count" with
        | error e8 =>
            rw [h8] at H
            dsimp only [Bind.bind, Except.bind] at H
            injection H with h'
            exact PyErr.noConfusion (h' ▸ qmapGet_error h8)
        | ok mc =>
        rw [h8] at H
        dsimp only [Bind.bind, Except.bind] at H
        cases hA : pyDiv wins (max mc 1) with
        | error eA =>
            have hz := pyDiv_error hA
            have hge : (1 : ℚ) ≤ max mc 1 := le_max_right _ _
            rw [hz] at hge
            norm_num at hge
        | ok win_rate =>
        rw [hA] at H
        dsimp only [Bind.bind, Except.bind] at H
        cases hB : pyDiv hvw (max hvm 1) with
        | error eB =>
            have hz := pyDiv_error hB
            have hge : (1 : ℚ) ≤ max hvm 1 := le_max_right _ _
            rw [hz] at hge
            norm_num at hge
        | ok hv_rate =>
        rw [hB] at H
        dsimp only [Bind.bind, Except.bind] at H
        exact Except.noConfusion H

/-- C4, witness: the neutral defaults on an empty database and the
division-safety at a concrete database. -/
theorem C4_h2h_neutral_defaults_witness :
    get_extended_h2h_features emptyDb 1 2 { year := 2024, ord := 60 } 10 =
      .ok get_default_h2h_features ∧
    qmapGet get_default_h2h_features "h2h_win_rate" = .ok (1/2) ∧
    get_match_h2h_features dbC5 m0C5 ≠ .error .zeroDivisionError :=
  ⟨C4_h2h_neutral_defaults.1 emptyDb 1 2 { year := 2024, ord := 60 } 10
     (by intro m hm; cases hm),
   C4_h2h_neutral_defaults.2.1,
   C4_h2h_neutral_defaults.2.2.2.2.2 dbC5 m0C5⟩

/-! ## Claim C6 -/

/-- Two training runs on the same calendar day, ten minutes apart. -/
def tRunA : TrainTime := { day := 738000, minuteOfDay := 600 }

def tRunB : TrainTime := { day := 738000, minuteOfDay := 610 }

/-- A model directory already holding a promoted bundle from an earlier day. -/
def dirOld : ModelDir :=
  { model_pkl := some "model-v0", scaler_pkl := some "scaler-v0",
    metadata_json := some { model_version := { algo := "xgb", day := 737999 } } }

def metaNew : MetaJson := { model_version := { algo := "xgb", day := 738000 } }

/-- C6, counterexample: two distinct `fit` runs of the same algorithm on the
same calendar day produce the **same** version id, and the bundle is written
in place at the serving paths — after the first write (an abort point) the
directory already serves the new model blob while the metadata still names the
old version, so an aborted run has a visible effect before any promotion. -/
theorem C6_counterexample :
    fit_model_version "xgb" tRunA = fit_model_version "xgb" tRunB ∧
    tRunA ≠ tRunB ∧
    (fit_save_states dirOld "model-v1" "scaler-v1" metaNew).head? =
      some { model_pkl := some "model-v1", scaler_pkl := some "scaler-v0",
             metadata_json :=
               some { model_version := { algo := "xgb", day := 737999 } } } ∧
    ({ model_pkl := some "model-v1", scaler_pkl := some "scaler-v0",
       metadata_json :=
         some { model_version := { algo := "xgb", day := 737999 } } } :
        ModelDir) ≠ dirOld := by
  refine ⟨rfl, by decide, rfl, by decide⟩

/-- C6, amended: the version id is a pure function of the algorithm and the
wall-clock time truncated to the calendar day (`fit`) or to the minute
(retrain) — runs on different days always get distinct ids, but runs within
the same granule share one id; and the save path of `fit` writes the bundle
file-by-file in place at the serving paths: the first write already replaces
the served model blob, and only after all three writes does the directory
hold the consistent new bundle — there is no separate atomic promotion
step. -/
theorem C6_versioning_and_save :
    (∀ (algo : String) (t1 t2 : TrainTime), t1.day ≠ t2.day →
        fit_model_version algo t1 ≠ fit_model_version algo t2) ∧
    (∀ (algo : String) (t1 t2 : TrainTime),
        retrain_model_version algo t1 = retrain_model_version algo t2 ↔
          (t1.day = t2.day ∧ t1.minuteOfDay = t2.minuteOfDay)) ∧
    (∀ (dir : ModelDir) (mb sb : String) (meta : MetaJson),
        (fit_save_states dir mb sb meta).getLast? =
          some { model_pkl := some mb, scaler_pkl := some sb,
                 metadata_json := some meta }) ∧
    (∀ (dir : ModelDir) (mb sb : String) (meta : MetaJson),
        (fit_save_states dir mb sb meta).head? =
          some { dir with model_pkl := some mb }) := by
  refine ⟨?_, ?_, fun dir mb sb meta => rfl, fun dir mb sb meta => rfl⟩
  · intro algo t1 t2 hday hEq
    exact hday (congrArg FitVersion.day hEq)
  · intro algo t1 t2
    constructor
    · intro hEq
      exact ⟨congrArg RetrainVersion.day hEq,
             congrArg RetrainVersion.minuteOfDay hEq⟩
    · intro ⟨h1, h2⟩
      simp [retrain_model_version, h1, h2]

/-- C6, witness for the amended theorem at concrete inputs. -/
theorem C6_versioning_and_save_witness :
    fit_model_version "xgb" { day := 1, minuteOfDay := 0 } ≠
      fit_model_version "xgb" { day := 2, minuteOfDay := 0 } ∧
    (retrain_model_version "xgb" tRunA = retrain_model_version "xgb" tRunB ↔
      (tRunA.day = tRunB.day ∧ tRunA.minuteOfDay = tRunB.minuteOfDay)) ∧
    (fit_save_states dirOld "model-v1" "scaler-v1" metaNew).getLast? =
      some { model_pkl := some "model-v1", scaler_pkl := some "scaler-v1",
             metadata_json := some metaNew } ∧
    (fit_save_states dirOld "model-v1" "scaler-v1" metaNew).head? =
      some { dirOld with model_pkl := some "model-v1" } :=
  ⟨C6_versioning_and_save.1 "xgb" { day := 1, minuteOfDay := 0 }
     { day := 2, minuteOfDay := 0 } (by decide),
   C6_versioning_and_save.2.1 "xgb" tRunA tRunB,
   C6_versioning_and_save.2.2.1 dirOld "model-v1" "scaler-v1" metaNew,
   C6_versioning_and_save.2.2.2 dirOld "model-v1" "scaler-v1" metaNew⟩
